import Mathlib

/-!
Verification of the consultation-lifecycle and payment-settlement core of the
lawpower Telegram-bot repository.  The definitions below are a shallow
embedding of the Python source:

* `telegram_bot/models/consultations.py` — `Consultation`, `Payment`,
  the status enums, `Payment.is_refundable`, `Payment.process_refund`,
  `Consultation.mark_paid`, `Consultation.schedule`, the
  `completed_consultation_check` table constraint;
* `telegram_bot/services/payments/providers.py` — `ClickProvider.verify_callback`
  and `UnifiedPaymentService` (`create_payment`, `process_callback`,
  `_handle_payment_status_change`);
* `telegram_bot/services/consultations.py` — `ConsultationService`
  (`schedule_consultation`, `confirm_payment`, `cancel_consultation`,
  `complete_consultation`, `_is_valid_time`, `_is_time_available`,
  `_process_refund`);
* `telegram_bot/utils/validators.py` — `Validator.amount`.

Datetimes are modelled as whole minutes since a Monday 00:00 epoch, so that
`weekday()` and `.hour` of the source become arithmetic on minutes.
Monetary amounts (Python `Decimal`) are modelled as exact rationals.
Database sessions are modelled by explicit state passing on a `DB` record of
rows; a `commit` in the source corresponds to the updated `DB` value.
The HMAC-SHA256 signing primitive (`PaymentProviderBase._generate_signature`)
and the Click secret key are opaque parameters `sig : String → String` and
`secret : String`; every theorem about signatures is proved for an arbitrary
signing function, hence in particular for the real HMAC.
Exceptions become `Except` values; Python truthiness of optional values is
modelled explicitly where the source relies on it.
-/

namespace Lawpower

/-- Minutes since a Monday 00:00 epoch (models `datetime`). -/
abbrev DT := Nat

/-- Models Python `dt.weekday()`: 0 = Monday … 6 = Sunday. -/
def weekday_of (t : DT) : Nat := t / 1440 % 7

/-- Models Python `dt.hour`. -/
def hour_of (t : DT) : Nat := t % 1440 / 60

/-- Models Python `(now - created).days` (whole elapsed days, for `now ≥ created`). -/
def days_between (created now : DT) : Nat := (now - created) / 1440

/-- `PaymentStatus` enum of `models/consultations.py`. -/
inductive PaymentStatus where
  | pending | processing | completed | failed | cancelled | refunded
deriving DecidableEq, Repr

/-- `ConsultationStatus` enum of `models/consultations.py`. -/
inductive ConsultationStatus where
  | pending | confirmed | paid | scheduled | in_progress | completed | cancelled | refunded
deriving DecidableEq, Repr

/-- The Click webhook payload dict; each field is `none` when the key is
absent (`KeyError` in the source on access). -/
structure ClickPayload where
  click_trans_id : Option String
  merchant_trans_id : Option String
  amount : Option String
  sign_time : Option String
  sign_string : Option String
  order_id : Option String
deriving DecidableEq, Repr

/-- The `refund` metadata record written by `Payment.process_refund`. -/
structure RefundMeta where
  amount : ℚ
  reason : String
  transaction_id : Option String
  processed_at : DT
deriving DecidableEq, Repr

/-- `Payment` row of `models/consultations.py` (the model re-exported by
`models/__init__.py`); metadata keys touched by the core are explicit
`meta_` fields. -/
structure Payment where
  id : Nat
  consultation_id : Nat
  user_id : Nat
  amount : ℚ
  status : PaymentStatus
  refund_amount : Option ℚ
  refund_reason : Option String
  refund_transaction_id : Option String
  refunded_at : Option DT
  created_at : DT
  meta_callback_data : Option ClickPayload
  meta_processed_at : Option DT
  meta_payment_url : Option String
  meta_refund : Option RefundMeta
deriving DecidableEq, Repr

/-- `Consultation` row of `models/consultations.py`; columns first, then the
metadata keys written by the services (`meta_` fields). -/
structure Consultation where
  id : Nat
  user_id : Nat
  status : ConsultationStatus
  amount : ℚ
  scheduled_time : Option DT
  reschedule_count : Nat
  rescheduled_from : Option DT
  cancellation_deadline : Option DT
  is_paid : Bool
  paid_at : Option DT
  rating : Option Nat
  completed_at : Option DT
  meta_payment_id : Option String
  meta_paid_at : Option DT
  meta_scheduled_at : Option DT
  meta_payment_completed_at : Option DT
  meta_cancelled_at : Option DT
  meta_cancelled_by_user : Option Bool
  meta_cancellation_reason : Option String
  meta_completed_at : Option DT
  meta_completion_notes : Option String
  meta_rating : Option Nat
  meta_feedback : Option String
  meta_refunded : Option Bool
  meta_refund_time : Option DT
deriving DecidableEq, Repr

/-- The persistent store: the `payments` and `consultations` tables plus the
autoincrement counter used when a new row is inserted. -/
structure DB where
  payments : List Payment
  consultations : List Consultation
  next_id : Nat
deriving DecidableEq, Repr

/-- Observable side effects fired by the services. -/
inductive Event where
  | notify (user_id : Nat) (msg : String)
  | request_feedback (consultation_id : Nat)
deriving DecidableEq, Repr

/-- Primary-key lookup on the payments table (`BaseService.get`). -/
def DB.get_payment (db : DB) (pid : Nat) : Option Payment :=
  db.payments.find? (fun p => p.id == pid)

/-- Primary-key lookup on the consultations table (`BaseService.get` /
`session.get(Consultation, id)`). -/
def DB.get_consultation (db : DB) (cid : Nat) : Option Consultation :=
  db.consultations.find? (fun c => c.id == cid)

/-- Mutate-then-commit of the payment row with id `pid`. -/
def DB.set_payment (db : DB) (pid : Nat) (f : Payment → Payment) : DB :=
  { db with payments := db.payments.map (fun p => if p.id == pid then f p else p) }

/-- Mutate-then-commit of the consultation row with id `cid`. -/
def DB.set_consultation (db : DB) (cid : Nat) (f : Consultation → Consultation) : DB :=
  { db with consultations := db.consultations.map (fun c => if c.id == cid then f c else c) }

/-- Python truthiness of an optional string (used by `if payment_id:` and
`if reason:` in the source): falsy when absent or empty. -/
def str_truthy : Option String → Bool
  | none => false
  | some s => s != ""

/-- Python truthiness of an optional int (used by `if rating:`):
falsy when absent or zero. -/
def nat_truthy : Option Nat → Bool
  | none => false
  | some n => n != 0

/-- Python falsiness of `self.refund_amount` in `Payment.is_refundable`
(`not self.refund_amount`): true when the column is NULL or zero. -/
def refund_amount_falsy (p : Payment) : Bool :=
  match p.refund_amount with
  | none => true
  | some q => q == 0

/-! ### Payment model methods (`models/consultations.py`) -/

/-- `Payment.is_refundable`: COMPLETED, no (truthy) prior refund, and
`(utcnow() - created_at).days <= 30`. -/
def is_refundable (p : Payment) (now : DT) : Bool :=
  p.status == PaymentStatus.completed &&
  refund_amount_falsy p &&
  decide (days_between p.created_at now ≤ 30)

/-- Predicate following the words of the spec sentence for refund
eligibility: "age since creation <= 30 days".  Declared only to be compared
with the source's `is_refundable` (refinement check for claim C4). -/
def is_refundable_spec (p : Payment) (now : DT) : Bool :=
  p.status == PaymentStatus.completed &&
  p.refund_amount == none &&
  decide (now - p.created_at ≤ 30 * 1440)

/-- `Payment.process_refund`: raises `ValueError` unless `is_refundable`,
otherwise moves to REFUNDED and records the refund details. -/
def Payment.process_refund (p : Payment) (amount : ℚ) (reason : String)
    (transaction_id : Option String) (now : DT) : Except String Payment :=
  if !(is_refundable p now) then
    Except.error "Payment cannot be refunded"
  else
    Except.ok { p with
      status := PaymentStatus.refunded
      refund_amount := some amount
      refund_reason := some reason
      refund_transaction_id := transaction_id
      refunded_at := some now
      meta_refund := some ⟨amount, reason, transaction_id, now⟩ }

/-! ### Consultation model methods (`models/consultations.py`) -/

/-- `Consultation.mark_paid`: unconditionally sets `is_paid`, `paid_at` and
status PAID; records `metadata['payment_id']` when the argument is truthy. -/
def Consultation.mark_paid (c : Consultation) (payment_id : Option String)
    (now : DT) : Consultation :=
  let c1 := { c with is_paid := true, paid_at := some now,
                     status := ConsultationStatus.paid }
  if str_truthy payment_id then { c1 with meta_payment_id := payment_id } else c1

/-- `Consultation.schedule` (model helper): records reschedule lineage, sets
status SCHEDULED and `cancellation_deadline = scheduled_time - timedelta(hours=24)`. -/
def Consultation.schedule (c : Consultation) (t : DT) : Consultation :=
  let c1 :=
    match c.scheduled_time with
    | some prev => { c with reschedule_count := c.reschedule_count + 1,
                            rescheduled_from := some prev }
    | none => c
  { c1 with scheduled_time := some t,
            status := ConsultationStatus.scheduled,
            cancellation_deadline := some (t - 1440) }

/-- The `completed_consultation_check` table constraint of
`Consultation.__table_args__`: a COMPLETED row must have the `rating` and
`completed_at` columns set. -/
def completed_consultation_check (c : Consultation) : Prop :=
  c.status ≠ ConsultationStatus.completed ∨
  (c.rating ≠ none ∧ c.completed_at ≠ none)

/-! ### Click provider (`services/payments/providers.py`) -/

/-- The canonical string signed in `ClickProvider.verify_callback`;
`none` when any of the accessed payload keys is missing (`KeyError`). -/
def click_sign_payload (secret : String) (d : ClickPayload) : Option String :=
  match d.click_trans_id, d.merchant_trans_id, d.amount, d.sign_time with
  | some a, some b, some c, some e => some (a ++ secret ++ b ++ c ++ e)
  | _, _, _, _ => none

/-- `ClickProvider.verify_callback`: recomputes the signature and compares
with `data['sign_string']`; any `KeyError` is caught and yields `false`. -/
def click_verify_callback (sig : String → String) (secret : String)
    (d : ClickPayload) : Bool :=
  match click_sign_payload secret d, d.sign_string with
  | some s, some given => sig s == given
  | _, _ => false

/-- Python `str.split(sep)` for a one-character separator, on the character
list of the string. -/
def splitc (sep : Char) (cs : List Char) : List (List Char) :=
  match cs with
  | [] => [[]]
  | c :: rest =>
    let r := splitc sep rest
    if c == sep then [] :: r
    else
      match r with
      | [] => [[c]]
      | h :: t => (c :: h) :: t

/-- Numeric value of a digit run (`none` on a non-digit character). -/
def digits_val (cs : List Char) : Option Nat :=
  cs.foldl
    (fun acc c =>
      match acc with
      | none => none
      | some n => if c.isDigit then some (n * 10 + (c.toNat - 48)) else none)
    (some 0)

/-- Python `int(str)` on the digit forms used by the order ids
(`none` models the raised `ValueError`). -/
def int_of_chars (cs : List Char) : Option Nat :=
  if cs.isEmpty then none else digits_val cs

/-- `int(data.get('order_id', '').split('_')[1])` of
`UnifiedPaymentService.process_callback`; `none` models the caught
`KeyError`/`IndexError`/`ValueError`. -/
def parse_order_id : Option String → Option Nat
  | none => none
  | some s =>
    match (splitc '_' s.toList).get? 1 with
    | none => none
    | some t => int_of_chars t

/-! ### UnifiedPaymentService (`services/payments/providers.py`) -/

/-- The in-place mutation a callback performs on the resolved payment row
before `session.commit()`. -/
def apply_callback_update (d : ClickPayload) (now : DT) (p : Payment) : Payment :=
  { p with status := PaymentStatus.completed,
           meta_callback_data := some d,
           meta_processed_at := some now }

/-- `UnifiedPaymentService._handle_payment_status_change`: on COMPLETED,
set the linked consultation to PAID (when it exists), record
`metadata['payment_completed_at']`, and notify the user.  All raised
errors in the source are caught and logged, so the happy path is total. -/
def handle_payment_status_change (db : DB) (events : List Event)
    (p : Payment) (now : DT) : DB × List Event :=
  if p.status == PaymentStatus.completed then
    let db' :=
      match db.get_consultation p.consultation_id with
      | some _ =>
        db.set_consultation p.consultation_id (fun c =>
          { c with status := ConsultationStatus.paid,
                   meta_payment_completed_at := some now })
      | none => db
    (db', events ++ [Event.notify p.user_id "payment_success"])
  else
    (db, events)

/-- Result of `UnifiedPaymentService.process_callback`: the committed store,
the accumulated side effects, and the boolean return value. -/
structure CbOut where
  db : DB
  events : List Event
  ok : Bool
deriving DecidableEq, Repr

/-- `UnifiedPaymentService.process_callback`.  Every exception raised inside
the method body is caught by its `except` clause and becomes `false`:
unknown providers (`PaymentError`), the `payme`/`uzum` providers (whose
classes define no `verify_callback`, so the call raises `AttributeError`),
failed signature verification (`PaymentError`), an unparseable
`order_id`, and a missing payment row.  On a verified callback the payment
status is set to COMPLETED unconditionally, and the consultation update plus
the notification fire only when the status actually changed. -/
def process_callback (sig : String → String) (secret : String)
    (db : DB) (events : List Event) (provider : String) (d : ClickPayload)
    (now : DT) : CbOut :=
  if provider != "click" then ⟨db, events, false⟩
  else if !(click_verify_callback sig secret d) then ⟨db, events, false⟩
  else
    match parse_order_id d.order_id with
    | none => ⟨db, events, false⟩
    | some pid =>
      match db.get_payment pid with
      | none => ⟨db, events, false⟩
      | some p =>
        let old := p.status
        let db1 := db.set_payment pid (apply_callback_update d now)
        if old != PaymentStatus.completed then
          let r := handle_payment_status_change db1 events
                     (apply_callback_update d now p) now
          ⟨r.1, r.2, true⟩
        else
          ⟨db1, events, true⟩

/-- Result of `UnifiedPaymentService.create_payment`: the committed store and
either the raised `PaymentError` message or the new payment id with its
checkout URL. -/
structure CreateOut where
  db : DB
  result : Except String (Nat × String)
deriving Repr

/-- `UnifiedPaymentService.create_payment`.  `url_result` is the outcome of
the provider's `create_payment_url` network call (`none` models the provider
returning `None` after swallowing its own exception).  The row insertion is
committed by `BaseService.create` before the provider is called, and the
failure path raises `PaymentError` without rolling the row back. -/
def create_payment (db : DB) (amount : ℚ) (consultation_id user_id : Nat)
    (provider : String) (url_result : Option String) (now : DT) : CreateOut :=
  if amount < 1000 ∨ amount > 10000000 then
    ⟨db, Except.error "Amount must be between 1000.00 and 10000000.00"⟩
  else if !(["click", "payme", "uzum"].contains provider) then
    ⟨db, Except.error "Unknown payment provider"⟩
  else
    let pid := db.next_id
    let row : Payment :=
      { id := pid, consultation_id := consultation_id, user_id := user_id,
        amount := amount, status := PaymentStatus.pending,
        refund_amount := none, refund_reason := none,
        refund_transaction_id := none, refunded_at := none,
        created_at := now, meta_callback_data := none,
        meta_processed_at := none, meta_payment_url := none,
        meta_refund := none }
    let db1 : DB := { db with payments := db.payments ++ [row], next_id := pid + 1 }
    match url_result with
    | none => ⟨db1, Except.error "Failed to get payment URL"⟩
    | some url =>
      ⟨db1.set_payment pid (fun p => { p with meta_payment_url := some url }),
       Except.ok (pid, url)⟩

/-! ### ConsultationService (`services/consultations.py`) -/

/-- Result of a `ConsultationService` operation: the committed store, the
fired side effects, and either the raised `ValidationError` message or the
boolean return value. -/
structure SvcOut where
  db : DB
  events : List Event
  result : Except String Bool
deriving Repr

/-- `ConsultationService.WORKING_DAYS`: Monday through Saturday. -/
def WORKING_DAYS : List Nat := [0, 1, 2, 3, 4, 5]

/-- `ConsultationService._is_valid_time`: an allowed weekday with
`WORK_HOURS['start'] <= dt.hour < WORK_HOURS['end']` (9 to 18). -/
def is_valid_time (t : DT) : Bool :=
  WORKING_DAYS.contains (weekday_of t) &&
  decide (9 ≤ hour_of t) && decide (hour_of t < 18)

/-- `ConsultationService._is_time_available` (called without `exclude_id`):
no SCHEDULED or CONFIRMED consultation already holds the slot. -/
def is_time_available (db : DB) (t : DT) : Bool :=
  db.consultations.all (fun c =>
    !(c.scheduled_time == some t &&
      (c.status == ConsultationStatus.scheduled ||
       c.status == ConsultationStatus.confirmed)))

/-- `ConsultationService.schedule_consultation`: requires status PAID, a
valid working-day slot, and availability; on success sets `scheduled_time`,
status SCHEDULED and `metadata['scheduled_at']` (it does not call the model
helper `Consultation.schedule`, so `cancellation_deadline`,
`reschedule_count` and `rescheduled_from` are untouched). -/
def schedule_consultation (db : DB) (events : List Event) (cid : Nat)
    (t : DT) (now : DT) : SvcOut :=
  match db.get_consultation cid with
  | none => ⟨db, events, Except.ok false⟩
  | some c =>
    if c.status != ConsultationStatus.paid then
      ⟨db, events, Except.error "Consultation must be paid first"⟩
    else if !(is_valid_time t) then
      ⟨db, events, Except.error "Invalid consultation time"⟩
    else if !(is_time_available db t) then
      ⟨db, events, Except.error "Selected time is not available"⟩
    else
      let db1 := db.set_consultation cid (fun x =>
        { x with scheduled_time := some t,
                 status := ConsultationStatus.scheduled,
                 meta_scheduled_at := some now })
      ⟨db1, events ++ [Event.notify c.user_id "consultation_scheduled"],
       Except.ok true⟩

/-- `ConsultationService.confirm_payment`: only a PENDING consultation with a
matching amount is advanced; it is set to PAID with `metadata['payment_id']`
and `metadata['paid_at']` recorded (the `is_paid` and `paid_at` columns are
not written by this path). -/
def confirm_payment (db : DB) (events : List Event) (cid : Nat)
    (payment_id : String) (amount : ℚ) (now : DT) : SvcOut :=
  match db.get_consultation cid with
  | none => ⟨db, events, Except.ok false⟩
  | some c =>
    if c.status != ConsultationStatus.pending then
      ⟨db, events, Except.error "Invalid consultation status"⟩
    else if c.amount != amount then
      ⟨db, events, Except.error "Payment amount mismatch"⟩
    else
      let db1 := db.set_consultation cid (fun x =>
        { x with status := ConsultationStatus.paid,
                 meta_payment_id := some payment_id,
                 meta_paid_at := some now })
      ⟨db1, events ++ [Event.notify c.user_id "payment_confirmed"],
       Except.ok true⟩

/-- `ConsultationService._process_refund`.  It returns `False` when the
consultation has no `metadata['payment_id']`; otherwise it calls
`payment_service.process_refund`, but the `payment_service` instance is a
`UnifiedPaymentService` (providers.py), which defines no `process_refund`
method — the resulting `AttributeError` is caught by the method's `except`
clause, so the call always returns `False` without touching any state. -/
def cancel_process_refund (db : DB) (c : Consultation) : DB × Bool :=
  if !(str_truthy c.meta_payment_id) then (db, false)
  else (db, false)

/-- `ConsultationService.cancel_consultation`: only PENDING or SCHEDULED may
be cancelled; the status is set to CANCELLED with the cancellation metadata,
and only afterwards does the source test `consultation.status ==
ConsultationStatus.PAID` to decide whether to refund — a test on the value
it just overwrote, kept here exactly as written. -/
def cancel_consultation (db : DB) (events : List Event) (cid : Nat)
    (reason : Option String) (cancelled_by_user : Bool) (now : DT) : SvcOut :=
  match db.get_consultation cid with
  | none => ⟨db, events, Except.ok false⟩
  | some c =>
    if !(c.status == ConsultationStatus.pending ||
         c.status == ConsultationStatus.scheduled) then
      ⟨db, events, Except.error "Cannot cancel this consultation"⟩
    else
      let upd : Consultation → Consultation := fun x =>
        let x1 := { x with status := ConsultationStatus.cancelled,
                           meta_cancelled_at := some now,
                           meta_cancelled_by_user := some cancelled_by_user }
        if str_truthy reason then { x1 with meta_cancellation_reason := reason }
        else x1
      let db1 := db.set_consultation cid upd
      let c1 := upd c
      let after :=
        if c1.status == ConsultationStatus.paid then cancel_process_refund db1 c1
        else (db1, false)
      ⟨after.1, events ++ [Event.notify c.user_id "consultation_cancelled"],
       Except.ok true⟩

/-- `ConsultationService.complete_consultation`: only SCHEDULED may be
completed; sets status COMPLETED and `metadata['completed_at']`, records the
rating and feedback in metadata only when the rating is truthy, and requests
feedback otherwise.  The `rating` and `completed_at` columns are never
written. -/
def complete_consultation (db : DB) (events : List Event) (cid : Nat)
    (notes : Option String) (rating : Option Nat) (feedback : Option String)
    (now : DT) : SvcOut :=
  match db.get_consultation cid with
  | none => ⟨db, events, Except.ok false⟩
  | some c =>
    if c.status != ConsultationStatus.scheduled then
      ⟨db, events, Except.error "Cannot complete this consultation"⟩
    else
      let upd : Consultation → Consultation := fun x =>
        let x1 := { x with status := ConsultationStatus.completed,
                           meta_completed_at := some now }
        let x2 := if str_truthy notes
                  then { x1 with meta_completion_notes := notes } else x1
        if nat_truthy rating
        then { x2 with meta_rating := rating, meta_feedback := feedback }
        else x2
      let db1 := db.set_consultation cid upd
      let ev1 := if !(nat_truthy rating)
                 then events ++ [Event.request_feedback cid] else events
      ⟨db1, ev1, Except.ok true⟩

/-! ### Validator.amount (`utils/validators.py`) -/

/-- Unsigned part of the plain decimal literals accepted by
`decimal.Decimal(str)` (digits with at most one point; exponent forms are
not needed by any claim). -/
def parse_unsigned_decimal (cs : List Char) : Option ℚ :=
  match splitc '.' cs with
  | [ip] =>
    if ip.isEmpty then none
    else (digits_val ip).map (fun n => (n : ℚ))
  | [ip, fp] =>
    if ip.isEmpty && fp.isEmpty then none
    else
      match digits_val ip, digits_val fp with
      | some a, some b => some ((a : ℚ) + (b : ℚ) / ((10 : ℚ) ^ fp.length))
      | _, _ => none
  | _ => none

/-- `decimal.Decimal` construction from a string: optional sign then the
unsigned literal; `none` models the raised `decimal.InvalidOperation`. -/
def parse_decimal (cs : List Char) : Option ℚ :=
  match cs with
  | [] => none
  | '-' :: rest => (parse_unsigned_decimal rest).map (fun q => -q)
  | '+' :: rest => parse_unsigned_decimal rest
  | _ => parse_unsigned_decimal cs

/-- Inputs to `Validator.amount` exercised by the claims: exact numbers
(Python `int`, converted via `Decimal(str(amount))`) and strings (converted
via `Decimal(amount.replace(',', '.'))`). -/
inductive AmountIn where
  | ofInt (n : Int)
  | ofStr (s : String)
deriving DecidableEq, Repr

/-- Outcomes of `Validator.amount`: the `ValidationError` it raises on a
bound violation, or the `decimal.InvalidOperation` that a non-numeric string
raises inside `Decimal(...)` — the latter is NOT caught by the method's
`except (TypeError, ValueError)` clause and escapes to the caller. -/
inductive AmountErr where
  | validationError (msg : String)
  | invalidOperation
deriving DecidableEq, Repr

/-- `Validator.amount`.  The bound checks replicate the source's Python
truthiness: a bound equal to `0` is skipped (`if min_value and ...`). -/
def validator_amount (a : AmountIn) (min_value max_value : Option ℚ) :
    Except AmountErr ℚ :=
  let conv : Option ℚ :=
    match a with
    | AmountIn.ofInt n => some ((n : ℚ))
    | AmountIn.ofStr s =>
      parse_decimal (s.toList.map (fun c => if c == ',' then '.' else c))
  match conv with
  | none => Except.error AmountErr.invalidOperation
  | some amt =>
    if (match min_value with
        | some m => !(m == 0) && decide (amt < m)
        | none => false) then
      Except.error (AmountErr.validationError "Amount must be at least min")
    else if (match max_value with
             | some m => !(m == 0) && decide (amt > m)
             | none => false) then
      Except.error (AmountErr.validationError "Amount must be at most max")
    else
      Except.ok amt

instance {ε α : Type} [DecidableEq ε] [DecidableEq α] :
    DecidableEq (Except ε α) := fun a b =>
  match a, b with
  | Except.error e, Except.error f =>
    if h : e = f then isTrue (by rw [h])
    else isFalse (by intro hh; cases hh; exact h rfl)
  | Except.error _, Except.ok _ => isFalse (by intro hh; cases hh)
  | Except.ok _, Except.error _ => isFalse (by intro hh; cases hh)
  | Except.ok x, Except.ok y =>
    if h : x = y then isTrue (by rw [h])
    else isFalse (by intro hh; cases hh; exact h rfl)

/-! ### Concrete fixtures used by witnesses and counterexamples -/

/-- A signing function instance for concrete evaluations (the theorems about
signatures hold for every `sig`, so any instance exercises them). -/
def id_sig : String → String := fun s => s

/-- A pending payment row, id 1, linked to consultation 1. -/
def base_payment : Payment :=
  { id := 1, consultation_id := 1, user_id := 10, amount := 50000,
    status := PaymentStatus.pending, refund_amount := none,
    refund_reason := none, refund_transaction_id := none, refunded_at := none,
    created_at := 0, meta_callback_data := none, meta_processed_at := none,
    meta_payment_url := none, meta_refund := none }

/-- A pending consultation row, id 1. -/
def base_consultation : Consultation :=
  { id := 1, user_id := 10, status := ConsultationStatus.pending,
    amount := 50000, scheduled_time := none, reschedule_count := 0,
    rescheduled_from := none, cancellation_deadline := none, is_paid := false,
    paid_at := none, rating := none, completed_at := none,
    meta_payment_id := none, meta_paid_at := none, meta_scheduled_at := none,
    meta_payment_completed_at := none, meta_cancelled_at := none,
    meta_cancelled_by_user := none, meta_cancellation_reason := none,
    meta_completed_at := none, meta_completion_notes := none,
    meta_rating := none, meta_feedback := none, meta_refunded := none,
    meta_refund_time := none }

/-- A Click payload for payment 1 whose signature is valid for `id_sig` and
secret `"sek"`. -/
def sample_payload : ClickPayload :=
  { click_trans_id := some "t1", merchant_trans_id := some "m1",
    amount := some "50000", sign_time := some "7",
    sign_string := some "t1sekm1500007", order_id := some "order_1" }

/-- The same payload with a signature that does not match. -/
def bad_payload : ClickPayload :=
  { sample_payload with sign_string := some "WRONG" }

/-- Store with payment 1 PENDING and consultation 1 PENDING. -/
def db_c1 : DB := ⟨[base_payment], [base_consultation], 2⟩

/-- Store whose payment 1 is already CANCELLED (late-webhook scenario). -/
def db_cancelled : DB :=
  ⟨[{ base_payment with status := PaymentStatus.cancelled }],
   [base_consultation], 2⟩

/-- A COMPLETED payment created at time 0 with no refund recorded. -/
def pay_completed_aged : Payment :=
  { base_payment with status := PaymentStatus.completed }

/-- A SCHEDULED consultation whose payment (id 7) is COMPLETED; its
`metadata['payment_id']` is recorded, as `confirm_payment` would leave it. -/
def consult_sched_paid : Consultation :=
  { base_consultation with
    status := ConsultationStatus.scheduled
    meta_payment_id := some "7"
    scheduled_time := some (2 * 1440 + 600) }

/-- The COMPLETED payment linked to `consult_sched_paid`. -/
def pay_completed_c5 : Payment :=
  { base_payment with id := 7, status := PaymentStatus.completed }

/-- Store for the cancellation-refund scenario. -/
def db_c5 : DB := ⟨[pay_completed_c5], [consult_sched_paid], 8⟩

/-- A CANCELLED consultation. -/
def consult_cancelled : Consultation :=
  { base_consultation with status := ConsultationStatus.cancelled }

/-- A PAID consultation ready to be scheduled. -/
def consult_paid : Consultation :=
  { base_consultation with status := ConsultationStatus.paid }

/-- Store for the scheduling scenario. -/
def db_c9 : DB := ⟨[], [consult_paid], 2⟩

/-- A SCHEDULED consultation ready to be completed. -/
def consult_sched : Consultation :=
  { base_consultation with status := ConsultationStatus.scheduled }

/-- Store for the completion scenario. -/
def db_c10 : DB := ⟨[], [consult_sched], 2⟩

/-! ## Helper lemmas -/

theorem apply_callback_update_id (d : ClickPayload) (now : DT) (p : Payment) :
    (apply_callback_update d now p).id = p.id := rfl

theorem apply_callback_update_idem (d : ClickPayload) (now : DT) (p : Payment) :
    apply_callback_update d now (apply_callback_update d now p)
      = apply_callback_update d now p := rfl

theorem find_map_guard (l : List Payment) (pid : Nat) (f : Payment → Payment)
    (hf : ∀ p, (f p).id = p.id) :
    (l.map (fun p => if p.id == pid then f p else p)).find? (fun p => p.id == pid)
      = (l.find? (fun p => p.id == pid)).map f := by
  induction l with
  | nil => rfl
  | cons a l ih =>
    rw [List.map_cons]
    cases h : (a.id == pid) with
    | true =>
      have hfa : ((f a).id == pid) = true := by rw [hf]; exact h
      simp only [reduceIte]
      rw [List.find?_cons, List.find?_cons]
      simp only [hfa, h]
      rfl
    | false =>
      simp only [Bool.false_eq_true, if_false]
      rw [List.find?_cons, List.find?_cons]
      simp only [h]
      exact ih


theorem map_guard_idem (l : List Payment) (pid : Nat) (f : Payment → Payment)
    (hf : ∀ p, (f p).id = p.id) (hff : ∀ p, f (f p) = f p) :
    (l.map (fun p => if p.id == pid then f p else p)).map
        (fun p => if p.id == pid then f p else p)
      = l.map (fun p => if p.id == pid then f p else p) := by
  rw [List.map_map]
  have hg : ∀ p : Payment,
      ((fun p => if p.id == pid then f p else p) ∘
       (fun p => if p.id == pid then f p else p)) p
        = (fun p => if p.id == pid then f p else p) p := by
    intro p
    cases h : (p.id == pid) with
    | true =>
      have hfa : ((f p).id == pid) = true := by rw [hf]; exact h
      simp [Function.comp, h, hfa, hff]
    | false => simp [Function.comp, h]
  exact congrArg (fun g => l.map g) (funext hg)

theorem handle_pc_payments (db : DB) (events : List Event) (p : Payment)
    (now : DT) :
    (handle_payment_status_change db events p now).1.payments = db.payments := by
  unfold handle_payment_status_change
  cases hs : (p.status == PaymentStatus.completed) with
  | false => simp [hs]
  | true =>
    simp only [hs, if_true, reduceIte]
    cases hc : db.get_consultation p.consultation_id with
    | none => simp [hc]
    | some c => simp [hc, DB.set_consultation]

theorem get_payment_eq_of_payments (db1 db2 : DB) (pid : Nat)
    (h : db1.payments = db2.payments) :
    db1.get_payment pid = db2.get_payment pid := by
  unfold DB.get_payment
  rw [h]

theorem set_payment_noop (db' : DB) (l : List Payment) (pid : Nat)
    (f : Payment → Payment) (hf : ∀ p, (f p).id = p.id)
    (hff : ∀ p, f (f p) = f p)
    (hl : db'.payments = l.map (fun p => if p.id == pid then f p else p)) :
    db'.set_payment pid f = db' := by
  unfold DB.set_payment
  rw [hl, map_guard_idem l pid f hf hff, ← hl]

theorem process_callback_found (sig : String → String) (secret : String)
    (db : DB) (events : List Event) (d : ClickPayload) (now : DT)
    (pid : Nat) (p : Payment)
    (hv : click_verify_callback sig secret d = true)
    (hp : parse_order_id d.order_id = some pid)
    (hfound : db.get_payment pid = some p) :
    process_callback sig secret db events "click" d now =
      (if p.status != PaymentStatus.completed then
        ⟨(handle_payment_status_change
            (db.set_payment pid (apply_callback_update d now)) events
            (apply_callback_update d now p) now).1,
         (handle_payment_status_change
            (db.set_payment pid (apply_callback_update d now)) events
            (apply_callback_update d now p) now).2, true⟩
      else ⟨db.set_payment pid (apply_callback_update d now), events, true⟩) := by
  unfold process_callback
  simp only [hp, hfound, hv, bne_self_eq_false, Bool.not_true,
    Bool.false_eq_true, if_false, reduceIte]

/-! ## Claims -/

/-- C1: for every payment and every valid Click callback payload (signature
verifies, order id parses, the payment row exists), running
`process_callback` a second time with the same payload leaves the store —
both the Payment and the Consultation tables — exactly as after the first
run, returns `true` again, and appends no further notification event,
because the payment's status already equals the status the callback sets. -/
theorem process_callback_idempotent
    (sig : String → String) (secret : String) (db : DB) (events : List Event)
    (d : ClickPayload) (now : DT) (pid : Nat) (p : Payment)
    (hv : click_verify_callback sig secret d = true)
    (hp : parse_order_id d.order_id = some pid)
    (hfound : db.get_payment pid = some p) :
    (process_callback sig secret db events "click" d now).ok = true ∧
    process_callback sig secret
        (process_callback sig secret db events "click" d now).db
        (process_callback sig secret db events "click" d now).events
        "click" d now
      = ⟨(process_callback sig secret db events "click" d now).db,
         (process_callback sig secret db events "click" d now).events, true⟩ := by
  have hstep := process_callback_found sig secret db events d now pid p
    hv hp hfound
  have hfid : ∀ q : Payment, (apply_callback_update d now q).id = q.id :=
    fun q => rfl
  have hfidem : ∀ q : Payment,
      apply_callback_update d now (apply_callback_update d now q)
        = apply_callback_update d now q :=
    fun q => apply_callback_update_idem d now q
  have hgset : (db.set_payment pid (apply_callback_update d now)).get_payment pid
      = some (apply_callback_update d now p) := by
    unfold DB.set_payment DB.get_payment
    rw [find_map_guard db.payments pid _ hfid]
    unfold DB.get_payment at hfound
    rw [hfound]
    rfl
  have hgstat : ((apply_callback_update d now p).status
      != PaymentStatus.completed) = false := rfl
  cases hst : (p.status != PaymentStatus.completed) with
  | false =>
    rw [hst] at hstep
    simp only [Bool.false_eq_true, if_false, reduceIte] at hstep
    rw [hstep]
    refine ⟨rfl, ?_⟩
    have hstep2 := process_callback_found sig secret
      (db.set_payment pid (apply_callback_update d now)) events d now pid
      (apply_callback_update d now p) hv hp hgset
    rw [hstep2, hgstat]
    simp only [Bool.false_eq_true, if_false, reduceIte]
    rw [set_payment_noop _ db.payments pid _ hfid hfidem rfl]
  | true =>
    rw [hst] at hstep
    simp only [if_true, reduceIte] at hstep
    rw [hstep]
    refine ⟨rfl, ?_⟩
    have hpayH : (handle_payment_status_change
        (db.set_payment pid (apply_callback_update d now)) events
        (apply_callback_update d now p) now).1.payments
        = db.payments.map
            (fun q => if q.id == pid then apply_callback_update d now q else q) :=
      handle_pc_payments _ events _ now
    have hfound2 : (handle_payment_status_change
        (db.set_payment pid (apply_callback_update d now)) events
        (apply_callback_update d now p) now).1.get_payment pid
        = some (apply_callback_update d now p) := by
      rw [get_payment_eq_of_payments _
        (db.set_payment pid (apply_callback_update d now)) pid hpayH]
      exact hgset
    have hstep2 := process_callback_found sig secret
      (handle_payment_status_change
        (db.set_payment pid (apply_callback_update d now)) events
        (apply_callback_update d now p) now).1
      (handle_payment_status_change
        (db.set_payment pid (apply_callback_update d now)) events
        (apply_callback_update d now p) now).2
      d now pid (apply_callback_update d now p) hv hp hfound2
    rw [hstep2, hgstat]
    simp only [Bool.false_eq_true, if_false, reduceIte]
    rw [set_payment_noop _ db.payments pid _ hfid hfidem hpayH]

/-- Witness for C1 at a concrete pending payment and valid payload. -/
theorem process_callback_idempotent_witness :
    click_verify_callback id_sig "sek" sample_payload = true ∧
    parse_order_id sample_payload.order_id = some 1 ∧
    db_c1.get_payment 1 = some base_payment ∧
    ((process_callback id_sig "sek" db_c1 [] "click" sample_payload 5).ok = true ∧
     process_callback id_sig "sek"
         (process_callback id_sig "sek" db_c1 [] "click" sample_payload 5).db
         (process_callback id_sig "sek" db_c1 [] "click" sample_payload 5).events
         "click" sample_payload 5
       = ⟨(process_callback id_sig "sek" db_c1 [] "click" sample_payload 5).db,
          (process_callback id_sig "sek" db_c1 [] "click" sample_payload 5).events,
          true⟩) :=
  ⟨by decide, by decide, by decide,
   process_callback_idempotent id_sig "sek" db_c1 [] sample_payload 5 1
     base_payment (by decide) (by decide) (by decide)⟩

/-- C2: a callback whose signature does not match the signature recomputed
from the payload fields makes `process_callback` return `false` with the
stored Payments and Consultations untouched, and `verify_callback` itself
returns `false` (instead of raising) on any payload with a missing field. -/
theorem process_callback_rejects_unverified
    (sig : String → String) (secret : String) :
    (∀ (db : DB) (events : List Event) (provider : String) (d : ClickPayload)
        (now : DT),
        (∀ s, click_sign_payload secret d = some s →
          d.sign_string ≠ some (sig s)) →
        process_callback sig secret db events provider d now
          = ⟨db, events, false⟩) ∧
    (∀ d : ClickPayload,
        d.click_trans_id = none ∨ d.merchant_trans_id = none ∨
        d.amount = none ∨ d.sign_time = none ∨ d.sign_string = none →
        click_verify_callback sig secret d = false) := by
  constructor
  · intro db events provider d now hmis
    have hv : click_verify_callback sig secret d = false := by
      unfold click_verify_callback
      cases hsp : click_sign_payload secret d with
      | none => rfl
      | some s =>
        cases hss : d.sign_string with
        | none => rfl
        | some given =>
          have : given ≠ sig s := by
            intro he
            exact hmis s hsp (by rw [hss, he])
          simp [this.symm]
    unfold process_callback
    cases hpr : (provider != "click") with
    | true => simp [hpr]
    | false => simp [hpr, hv]
  · intro d hmiss
    unfold click_verify_callback click_sign_payload
    rcases hmiss with h | h | h | h | h <;> rw [h] <;>
      first
        | rfl
        | (cases d.click_trans_id <;> cases d.merchant_trans_id <;>
           cases d.amount <;> cases d.sign_time <;> rfl)

/-- Witness for C2 at a concrete payload carrying a wrong signature. -/
theorem process_callback_rejects_unverified_witness :
    (∀ s, click_sign_payload "sek" bad_payload = some s →
       bad_payload.sign_string ≠ some (id_sig s)) ∧
    process_callback id_sig "sek" db_c1 [] "click" bad_payload 0
      = ⟨db_c1, [], false⟩ := by
  have hmis : ∀ s, click_sign_payload "sek" bad_payload = some s →
      bad_payload.sign_string ≠ some (id_sig s) := by
    intro s hs
    have h1 : click_sign_payload "sek" bad_payload = some "t1sekm1500007" := by
      decide
    rw [h1] at hs
    injection hs with h2
    subst h2
    decide
  exact ⟨hmis,
    (process_callback_rejects_unverified id_sig "sek").1 db_c1 [] "click"
      bad_payload 0 hmis⟩

theorem process_callback_completes (sig : String → String) (secret : String)
    (db : DB) (events : List Event) (d : ClickPayload) (now : DT)
    (pid : Nat) (p : Payment)
    (hv : click_verify_callback sig secret d = true)
    (hp : parse_order_id d.order_id = some pid)
    (hfound : db.get_payment pid = some p) :
    (process_callback sig secret db events "click" d now).db.get_payment pid
      = some (apply_callback_update d now p) ∧
    (process_callback sig secret db events "click" d now).ok = true := by
  have hstep := process_callback_found sig secret db events d now pid p
    hv hp hfound
  have hfid : ∀ q : Payment, (apply_callback_update d now q).id = q.id :=
    fun q => rfl
  have hgset : (db.set_payment pid (apply_callback_update d now)).get_payment pid
      = some (apply_callback_update d now p) := by
    unfold DB.set_payment DB.get_payment
    rw [find_map_guard db.payments pid _ hfid]
    unfold DB.get_payment at hfound
    rw [hfound]
    rfl
  cases hst : (p.status != PaymentStatus.completed) with
  | false =>
    rw [hst] at hstep
    simp only [Bool.false_eq_true, if_false, reduceIte] at hstep
    rw [hstep]
    exact ⟨hgset, rfl⟩
  | true =>
    rw [hst] at hstep
    simp only [if_true, reduceIte] at hstep
    rw [hstep]
    refine ⟨?_, rfl⟩
    rw [get_payment_eq_of_payments _
      (db.set_payment pid (apply_callback_update d now)) pid
      (handle_pc_payments _ events _ now)]
    exact hgset

/-- C3 counterexample: payment 1 is CANCELLED, yet a verified late webhook
callback makes `process_callback` return `true` and move the payment to
COMPLETED — the CANCELLED → COMPLETED transition is not rejected and the
payment does not stay unchanged. -/
theorem payment_transition_unguarded_counterexample :
    (process_callback id_sig "sek" db_cancelled [] "click" sample_payload 5).ok
      = true ∧
    ((process_callback id_sig "sek" db_cancelled [] "click" sample_payload 5).db.get_payment 1).map
        Payment.status
      = some PaymentStatus.completed := by
  decide

/-- C3 (amended): the only guarded payment transition is the refund —
`Payment.process_refund` raises unless `is_refundable` holds (so only
COMPLETED, unrefunded, recent payments reach REFUNDED) — while webhook
callback processing enforces no state graph at all: on any verified,
resolvable callback it sets the payment's status to COMPLETED regardless of
the current status (for example CANCELLED → COMPLETED succeeds) and returns
`true`. -/
theorem payment_transition_amended :
    (∀ (p : Payment) (a : ℚ) (r : String) (t : Option String) (now : DT),
        is_refundable p now = false →
        Payment.process_refund p a r t now
          = Except.error "Payment cannot be refunded") ∧
    (∀ (p : Payment) (a : ℚ) (r : String) (t : Option String) (now : DT)
        (q : Payment),
        Payment.process_refund p a r t now = Except.ok q →
        p.status = PaymentStatus.completed ∧
        q.status = PaymentStatus.refunded) ∧
    (∀ (sig : String → String) (secret : String) (db : DB)
        (events : List Event) (d : ClickPayload) (now : DT) (pid : Nat)
        (p : Payment),
        click_verify_callback sig secret d = true →
        parse_order_id d.order_id = some pid →
        db.get_payment pid = some p →
        ((process_callback sig secret db events "click" d now).db.get_payment pid).map
            Payment.status
          = some PaymentStatus.completed ∧
        (process_callback sig secret db events "click" d now).ok = true) := by
  refine ⟨?_, ?_, ?_⟩
  · intro p a r t now h
    unfold Payment.process_refund
    rw [h]
    rfl
  · intro p a r t now q h
    unfold Payment.process_refund at h
    cases hr : is_refundable p now with
    | false => rw [hr] at h; cases h
    | true =>
      rw [hr] at h
      simp only [Bool.not_true, Bool.false_eq_true, if_false, reduceIte] at h
      cases h
      constructor
      · unfold is_refundable at hr
        have := (Bool.and_eq_true _ _).mp hr
        have h1 := (Bool.and_eq_true _ _).mp this.1
        exact beq_iff_eq.mp h1.1
      · rfl
  · intro sig secret db events d now pid p hv hp hfound
    have h := process_callback_completes sig secret db events d now pid p
      hv hp hfound
    exact ⟨by rw [h.1]; rfl, h.2⟩

/-- Witness for C3 (amended): a PENDING payment is not refundable and the
refund raises; a CANCELLED payment is completed by a verified callback. -/
theorem payment_transition_amended_witness :
    (is_refundable base_payment 0 = false ∧
     Payment.process_refund base_payment 50000 "r" none 0
       = Except.error "Payment cannot be refunded") ∧
    (click_verify_callback id_sig "sek" sample_payload = true ∧
     parse_order_id sample_payload.order_id = some 1 ∧
     db_cancelled.get_payment 1
       = some { base_payment with status := PaymentStatus.cancelled } ∧
     ((process_callback id_sig "sek" db_cancelled [] "click" sample_payload 5).db.get_payment 1).map
         Payment.status
       = some PaymentStatus.completed ∧
     (process_callback id_sig "sek" db_cancelled [] "click" sample_payload 5).ok
       = true) :=
  ⟨⟨by decide,
    payment_transition_amended.1 base_payment 50000 "r" none 0 (by decide)⟩,
   by decide, by decide, by decide,
   payment_transition_amended.2.2 id_sig "sek" db_cancelled [] sample_payload 5
     1 { base_payment with status := PaymentStatus.cancelled }
     (by decide) (by decide) (by decide)⟩

/-- C4 counterexample: a COMPLETED, never-refunded payment created at time 0
is still refundable at age 30 days + 1 hour, although its age exceeds
30 days — the code floors the elapsed whole days (`.days <= 30`), so the
claimed "age at most 30 days" boundary is not what the code implements. -/
theorem is_refundable_day_floor_counterexample :
    is_refundable pay_completed_aged (30 * 1440 + 60) = true ∧
    is_refundable_spec pay_completed_aged (30 * 1440 + 60) = false := by
  decide

/-- C4 (amended): `is_refundable` is true exactly when the status is
COMPLETED, the recorded `refund_amount` is NULL or zero, and fewer than 31
whole days have elapsed since creation (floor of elapsed days at most 30);
in particular 29 whole days is refundable, 31 whole days is not, and any
nonzero recorded `refund_amount` makes the payment non-refundable. -/
theorem is_refundable_amended :
    (∀ (p : Payment) (now : DT),
        is_refundable p now = true ↔
          (p.status = PaymentStatus.completed ∧
           (p.refund_amount = none ∨ p.refund_amount = some 0) ∧
           days_between p.created_at now ≤ 30)) ∧
    is_refundable pay_completed_aged (29 * 1440) = true ∧
    is_refundable pay_completed_aged (31 * 1440) = false ∧
    (∀ (now : DT) (q : ℚ), q ≠ 0 →
        is_refundable { pay_completed_aged with refund_amount := some q } now
          = false) := by
  refine ⟨?_, by decide, by decide, ?_⟩
  · intro p now
    unfold is_refundable refund_amount_falsy
    cases hr : p.refund_amount with
    | none => simp [hr]
    | some q => simp [hr, and_assoc]
  · intro now q hq
    unfold is_refundable refund_amount_falsy
    simp [hq]

/-- Witness for C4 (amended) at the 29-day-old payment and a nonzero
recorded refund amount. -/
theorem is_refundable_amended_witness :
    (pay_completed_aged.status = PaymentStatus.completed ∧
     (pay_completed_aged.refund_amount = none ∨
      pay_completed_aged.refund_amount = some 0) ∧
     days_between pay_completed_aged.created_at (29 * 1440) ≤ 30) ∧
    is_refundable { pay_completed_aged with refund_amount := some 5 } 0
      = false :=
  ⟨(is_refundable_amended.1 pay_completed_aged (29 * 1440)).mp (by decide),
   is_refundable_amended.2.2.2 0 5 (by decide)⟩

theorem find_map_guard_c (l : List Consultation) (cid : Nat)
    (f : Consultation → Consultation) (hf : ∀ c, (f c).id = c.id) :
    (l.map (fun c => if c.id == cid then f c else c)).find? (fun c => c.id == cid)
      = (l.find? (fun c => c.id == cid)).map f := by
  induction l with
  | nil => rfl
  | cons a l ih =>
    rw [List.map_cons]
    cases h : (a.id == cid) with
    | true =>
      have hfa : ((f a).id == cid) = true := by rw [hf]; exact h
      simp only [reduceIte]
      rw [List.find?_cons, List.find?_cons]
      simp only [hfa, h]
      rfl
    | false =>
      simp only [Bool.false_eq_true, if_false]
      rw [List.find?_cons, List.find?_cons]
      simp only [h]
      exact ih

theorem get_set_consultation (db : DB) (cid : Nat)
    (f : Consultation → Consultation) (hf : ∀ c, (f c).id = c.id) :
    (db.set_consultation cid f).get_consultation cid
      = (db.get_consultation cid).map f := by
  unfold DB.set_consultation DB.get_consultation
  exact find_map_guard_c db.consultations cid f hf

/-- C5: the claim is right and the code is wrong — cancelling never
triggers a refund.  `cancel_consultation` first overwrites the status with
CANCELLED and only then tests `consultation.status == PAID`, which is
therefore always false, so `_process_refund` is unreachable: cancelling the
SCHEDULED consultation 1 (whose payment 7 is COMPLETED) records the reason
and cancels the consultation, but payment 7 stays COMPLETED instead of
becoming REFUNDED; in general no cancellation ever modifies the payments
table. -/
theorem cancel_consultation_never_refunds :
    (cancel_consultation db_c5 [] 1 (some "changed plans") true 1000).result
      = Except.ok true ∧
    ((cancel_consultation db_c5 [] 1 (some "changed plans") true 1000).db.get_consultation 1).map
        Consultation.status
      = some ConsultationStatus.cancelled ∧
    ((cancel_consultation db_c5 [] 1 (some "changed plans") true 1000).db.get_consultation 1).map
        Consultation.meta_cancellation_reason
      = some (some "changed plans") ∧
    ((cancel_consultation db_c5 [] 1 (some "changed plans") true 1000).db.get_payment 7).map
        Payment.status
      = some PaymentStatus.completed ∧
    (∀ (db : DB) (events : List Event) (cid : Nat) (reason : Option String)
        (b : Bool) (now : DT),
        (cancel_consultation db events cid reason b now).db.payments
          = db.payments) := by
  refine ⟨by decide, by decide, by decide, by decide, ?_⟩
  intro db events cid reason b now
  unfold cancel_consultation
  cases hc : db.get_consultation cid with
  | none => rfl
  | some c =>
    simp only [hc]
    cases hguard : (!(c.status == ConsultationStatus.pending ||
        c.status == ConsultationStatus.scheduled)) with
    | true => simp only [hguard, if_true, reduceIte]
    | false =>
      simp only [hguard, Bool.false_eq_true, if_false]
      simp [cancel_process_refund, DB.set_consultation]

/-- C6 counterexample: `Consultation.mark_paid` applied to a CANCELLED
consultation is not rejected — it advances the status to PAID and sets
`is_paid` and `paid_at`, so the consultation does not stay unchanged. -/
theorem mark_paid_unguarded_counterexample :
    (consult_cancelled.mark_paid (some "7") 50).status
      = ConsultationStatus.paid ∧
    (consult_cancelled.mark_paid (some "7") 50).is_paid = true ∧
    (consult_cancelled.mark_paid (some "7") 50).paid_at = some 50 := by
  decide

/-- C6 (amended): the model method `Consultation.mark_paid` is unguarded —
it sets status PAID, `is_paid = true` and `paid_at` whatever the current
status; only the service path `ConsultationService.confirm_payment` guards
payment confirmation: a non-PENDING consultation makes it raise
`ValidationError` leaving the store and events untouched, and a PENDING
consultation is advanced to PAID with `metadata['payment_id']` and
`metadata['paid_at']` recorded — its `is_paid` and `paid_at` columns are
left unchanged. -/
theorem mark_paid_amended :
    (∀ (c : Consultation) (pid : Option String) (now : DT),
        (c.mark_paid pid now).status = ConsultationStatus.paid ∧
        (c.mark_paid pid now).is_paid = true ∧
        (c.mark_paid pid now).paid_at = some now) ∧
    (∀ (db : DB) (events : List Event) (cid : Nat) (pid : String) (amt : ℚ)
        (now : DT) (c : Consultation),
        db.get_consultation cid = some c →
        c.status ≠ ConsultationStatus.pending →
        confirm_payment db events cid pid amt now
          = ⟨db, events, Except.error "Invalid consultation status"⟩) ∧
    (∀ (db : DB) (events : List Event) (cid : Nat) (pid : String) (now : DT)
        (c : Consultation),
        db.get_consultation cid = some c →
        c.status = ConsultationStatus.pending →
        (confirm_payment db events cid pid c.amount now).db.get_consultation cid
          = some { c with status := ConsultationStatus.paid
                          meta_payment_id := some pid
                          meta_paid_at := some now } ∧
        (confirm_payment db events cid pid c.amount now).result
          = Except.ok true) := by
  refine ⟨?_, ?_, ?_⟩
  · intro c pid now
    unfold Consultation.mark_paid
    cases h : str_truthy pid <;> simp [h]
  · intro db events cid pid amt now c hfound hne
    unfold confirm_payment
    have hb : (c.status != ConsultationStatus.pending) = true :=
      bne_iff_ne.mpr hne
    simp only [hfound, hb, if_true, reduceIte]
  · intro db events cid pid now c hfound hpending
    unfold confirm_payment
    have hb : (c.status != ConsultationStatus.pending) = false := by
      rw [hpending]
      exact bne_self_eq_false ConsultationStatus.pending
    simp only [hfound, hb, Bool.false_eq_true, if_false,
      bne_self_eq_false]
    constructor
    · rw [get_set_consultation db cid
        (fun x => { x with status := ConsultationStatus.paid
                           meta_payment_id := some pid
                           meta_paid_at := some now })
        (fun x => rfl), hfound]
      rfl
    · trivial

/-- Witness for C6 (amended): `confirm_payment` rejects the SCHEDULED
consultation and advances the PENDING one. -/
theorem mark_paid_amended_witness :
    (db_c10.get_consultation 1 = some consult_sched ∧
     consult_sched.status ≠ ConsultationStatus.pending ∧
     confirm_payment db_c10 [] 1 "7" 50000 9
       = ⟨db_c10, [], Except.error "Invalid consultation status"⟩) ∧
    (db_c1.get_consultation 1 = some base_consultation ∧
     base_consultation.status = ConsultationStatus.pending ∧
     ((confirm_payment db_c1 [] 1 "7" base_consultation.amount 9).db.get_consultation 1
        = some { base_consultation with
                 status := ConsultationStatus.paid
                 meta_payment_id := some "7"
                 meta_paid_at := some 9 } ∧
      (confirm_payment db_c1 [] 1 "7" base_consultation.amount 9).result
        = Except.ok true)) :=
  ⟨⟨by decide, by decide,
    mark_paid_amended.2.1 db_c10 [] 1 "7" 50000 9 consult_sched (by decide)
      (by decide)⟩,
   by decide, by decide,
   mark_paid_amended.2.2 db_c1 [] 1 "7" 9 base_consultation (by decide)
     (by decide)⟩

/-- C7: amount validation probed with the spec's MIN/MAX bounds: 999 and
10_000_001 are rejected with `ValidationError`, 50_000 is accepted and
returned exactly (rationals model the fixed-point decimal, so there is no
float drift); but the non-numeric string "abc" raises
`decimal.InvalidOperation` inside `Decimal(...)`, which the method's
`except (TypeError, ValueError)` clause does not catch — the caller gets an
escaped `InvalidOperation`, not the claimed `ValidationError`. -/
theorem validator_amount_facts :
    validator_amount (AmountIn.ofStr "abc") (some 1000) (some 10000000)
      = Except.error AmountErr.invalidOperation ∧
    validator_amount (AmountIn.ofInt 999) (some 1000) (some 10000000)
      = Except.error (AmountErr.validationError "Amount must be at least min") ∧
    validator_amount (AmountIn.ofInt 10000001) (some 1000) (some 10000000)
      = Except.error (AmountErr.validationError "Amount must be at most max") ∧
    validator_amount (AmountIn.ofInt 50000) (some 1000) (some 10000000)
      = Except.ok 50000 := by
  decide

/-- C8: when the provider's checkout-URL call fails (returns no URL), the
already-inserted Payment row remains in the table with status PENDING —
appended, never rolled back or deleted — the consultations table is
untouched, and `create_payment` raises `PaymentError`. -/
theorem create_payment_url_failure_keeps_row
    (db : DB) (amount : ℚ) (cid uid : Nat) (now : DT)
    (hmin : 1000 ≤ amount) (hmax : amount ≤ 10000000) :
    (create_payment db amount cid uid "click" none now).result
      = Except.error "Failed to get payment URL" ∧
    (create_payment db amount cid uid "click" none now).db.payments
      = db.payments ++
        [{ id := db.next_id, consultation_id := cid, user_id := uid,
           amount := amount, status := PaymentStatus.pending,
           refund_amount := none, refund_reason := none,
           refund_transaction_id := none, refunded_at := none,
           created_at := now, meta_callback_data := none,
           meta_processed_at := none, meta_payment_url := none,
           meta_refund := none }] ∧
    (create_payment db amount cid uid "click" none now).db.consultations
      = db.consultations := by
  have hcond : ¬ (amount < 1000 ∨ amount > 10000000) := by
    rintro (h | h)
    · exact absurd h (not_lt.mpr hmin)
    · exact absurd h (not_lt.mpr hmax)
  unfold create_payment
  rw [if_neg hcond]
  have hprov : (!(["click", "payme", "uzum"].contains "click")) = false := rfl
  simp only [hprov, Bool.false_eq_true, if_false]
  refine ⟨?_, ?_, ?_⟩ <;> trivial

/-- Witness for C8 at a concrete store and amount. -/
theorem create_payment_url_failure_keeps_row_witness :
    ((1000 : ℚ) ≤ 50000 ∧ (50000 : ℚ) ≤ 10000000) ∧
    ((create_payment db_c1 50000 1 10 "click" none 3).result
       = Except.error "Failed to get payment URL" ∧
     (create_payment db_c1 50000 1 10 "click" none 3).db.payments
       = db_c1.payments ++
         [{ id := db_c1.next_id, consultation_id := 1, user_id := 10,
            amount := 50000, status := PaymentStatus.pending,
            refund_amount := none, refund_reason := none,
            refund_transaction_id := none, refunded_at := none,
            created_at := 3, meta_callback_data := none,
            meta_processed_at := none, meta_payment_url := none,
            meta_refund := none }] ∧
     (create_payment db_c1 50000 1 10 "click" none 3).db.consultations
       = db_c1.consultations) :=
  ⟨⟨by decide, by decide⟩,
   create_payment_url_failure_keeps_row db_c1 50000 1 10 3 (by decide)
     (by decide)⟩

/-- C9 counterexample: scheduling the PAID consultation 1 at minute 3480
(a Wednesday, 10:00) succeeds and sets status SCHEDULED, but
`cancellation_deadline` stays NULL rather than `scheduled_time - 24h`
(minute 2040): `schedule_consultation` never writes it. -/
theorem schedule_no_deadline_counterexample :
    (schedule_consultation db_c9 [] 1 3480 100).result = Except.ok true ∧
    ((schedule_consultation db_c9 [] 1 3480 100).db.get_consultation 1).map
        Consultation.status
      = some ConsultationStatus.scheduled ∧
    ((schedule_consultation db_c9 [] 1 3480 100).db.get_consultation 1).map
        Consultation.cancellation_deadline
      = some none ∧
    ((schedule_consultation db_c9 [] 1 3480 100).db.get_consultation 1).map
        Consultation.cancellation_deadline
      ≠ some (some (3480 - 1440)) := by
  decide

/-- C9 (amended): `schedule_consultation` rejects a non-PAID consultation
and an invalid slot with `ValidationError` (store and events untouched); on
a PAID consultation, a valid working-day slot (Mon–Sat, hour in 9..17) and
an available slot it sets `scheduled_time`, status SCHEDULED and
`metadata['scheduled_at']`, leaving `cancellation_deadline`,
`reschedule_count` and `rescheduled_from` unchanged; the 24-hour
cancellation deadline is set only by the model helper
`Consultation.schedule`, which the service never calls. -/
theorem schedule_consultation_amended :
    (∀ (db : DB) (events : List Event) (cid : Nat) (t now : DT)
        (c : Consultation),
        db.get_consultation cid = some c →
        c.status ≠ ConsultationStatus.paid →
        schedule_consultation db events cid t now
          = ⟨db, events, Except.error "Consultation must be paid first"⟩) ∧
    (∀ (db : DB) (events : List Event) (cid : Nat) (t now : DT)
        (c : Consultation),
        db.get_consultation cid = some c →
        c.status = ConsultationStatus.paid →
        is_valid_time t = false →
        schedule_consultation db events cid t now
          = ⟨db, events, Except.error "Invalid consultation time"⟩) ∧
    (∀ (db : DB) (events : List Event) (cid : Nat) (t now : DT)
        (c : Consultation),
        db.get_consultation cid = some c →
        c.status = ConsultationStatus.paid →
        is_valid_time t = true →
        is_time_available db t = true →
        (schedule_consultation db events cid t now).db.get_consultation cid
          = some { c with scheduled_time := some t
                          status := ConsultationStatus.scheduled
                          meta_scheduled_at := some now } ∧
        (schedule_consultation db events cid t now).result = Except.ok true) ∧
    (∀ (c : Consultation) (t : DT),
        (Consultation.schedule c t).cancellation_deadline = some (t - 1440)) := by
  refine ⟨?_, ?_, ?_, ?_⟩
  · intro db events cid t now c hfound hne
    unfold schedule_consultation
    have hb : (c.status != ConsultationStatus.paid) = true := bne_iff_ne.mpr hne
    simp only [hfound, hb, if_true, reduceIte]
  · intro db events cid t now c hfound hpaid hbad
    unfold schedule_consultation
    have hb : (c.status != ConsultationStatus.paid) = false := by
      rw [hpaid]
      exact bne_self_eq_false ConsultationStatus.paid
    simp only [hfound, hb, hbad, Bool.false_eq_true, if_false,
      Bool.not_false, if_true, reduceIte]
  · intro db events cid t now c hfound hpaid hok havail
    unfold schedule_consultation
    have hb : (c.status != ConsultationStatus.paid) = false := by
      rw [hpaid]
      exact bne_self_eq_false ConsultationStatus.paid
    simp only [hfound, hb, hok, havail, Bool.false_eq_true, if_false,
      Bool.not_true, reduceIte]
    constructor
    · rw [get_set_consultation db cid
        (fun x => { x with scheduled_time := some t
                           status := ConsultationStatus.scheduled
                           meta_scheduled_at := some now })
        (fun x => rfl), hfound]
      rfl
    · trivial
  · intro c t
    unfold Consultation.schedule
    cases c.scheduled_time <;> rfl

/-- Witness for C9 (amended): rejection of a SCHEDULED consultation and a
successful schedule of a PAID one at minute 3480. -/
theorem schedule_consultation_amended_witness :
    (db_c10.get_consultation 1 = some consult_sched ∧
     consult_sched.status ≠ ConsultationStatus.paid ∧
     schedule_consultation db_c10 [] 1 3480 100
       = ⟨db_c10, [], Except.error "Consultation must be paid first"⟩) ∧
    (db_c9.get_consultation 1 = some consult_paid ∧
     consult_paid.status = ConsultationStatus.paid ∧
     is_valid_time 3480 = true ∧
     is_time_available db_c9 3480 = true ∧
     ((schedule_consultation db_c9 [] 1 3480 100).db.get_consultation 1
        = some { consult_paid with
                 scheduled_time := some 3480
                 status := ConsultationStatus.scheduled
                 meta_scheduled_at := some 100 } ∧
      (schedule_consultation db_c9 [] 1 3480 100).result = Except.ok true)) :=
  ⟨⟨by decide, by decide,
    schedule_consultation_amended.1 db_c10 [] 1 3480 100 consult_sched
      (by decide) (by decide)⟩,
   by decide, by decide, by decide, by decide,
   schedule_consultation_amended.2.2.1 db_c9 [] 1 3480 100 consult_paid
     (by decide) (by decide) (by decide) (by decide)⟩

/-- C10: the claim matches the model's own `completed_consultation_check`
constraint, but the service violates it: completing the SCHEDULED
consultation 1 without a rating succeeds and produces a COMPLETED
consultation whose `rating` and `completed_at` columns are both NULL (only
`metadata['completed_at']` is written, and the rating is skipped entirely
when absent), so a reachable COMPLETED consultation lacks both the rating
and the completion timestamp required by the constraint. -/
theorem complete_without_rating :
    (complete_consultation db_c10 [] 1 none none none 777).db.get_consultation 1
      = some { consult_sched with
               status := ConsultationStatus.completed
               meta_completed_at := some 777 } ∧
    ¬ completed_consultation_check
        { consult_sched with
          status := ConsultationStatus.completed
          meta_completed_at := some 777 } ∧
    (complete_consultation db_c10 [] 1 none none none 777).result
      = Except.ok true ∧
    (complete_consultation db_c10 [] 1 none none none 777).events
      = [Event.request_feedback 1] := by
  refine ⟨by decide, ?_, by decide, by decide⟩
  unfold completed_consultation_check
  decide

end Lawpower
